import Mathlib

/-!
Verification of the poly-xtools core (Polymarket watcher).

A shallow embedding of the core of the `poly-xtools` repository:

* the wallet freshness analyzer (`internal/adapters/polymarket/wallet_analyzer.go`),
* the event-admission filter and background-refresh service
  (`docs/plans/2026-01-19-01-refactoring-optimization-plan.md`, `PolymarketService`),
* the persisted store's dedup ledger and refresh query (`storage.PolymarketStore`),
* both notification orchestrators: the in-memory one
  (`internal/services/notification_service.go`) and the persisted-ledger one from
  the refactoring plan.

Modelling conventions: Go `float64` is embedded as `Rat` (the source only parses
decimal strings and compares/multiplies the results), Go `time.Time` as a `Nat`
instant, Go maps as association lists whose iteration order is list order, the
SQLite tables as lists, and the external HTTP lookup as an `Option` argument
(`none` = transport / non-200 / decode failure). Fallible Go functions returning
`(T, error)` are embedded as `Except String T`.
-/

/-- Embeds `domain.FreshnessLevel` (Go string enum `""`/`"insider"`/`"fresh"`/`"newbie"`/`"fresher"`).
The constructor `wallet` corresponds to `FreshnessWallet` (string value `"fresh"`),
`custom` to `FreshnessCustom` (string value `"fresher"`). -/
inductive FreshnessLevel where
  | none
  | insider
  | wallet
  | newbie
  | custom
deriving DecidableEq, Repr

/-- Embeds `domain.PolymarketConfig`: the watcher configuration (only the fields the core
reads; the deprecated RPC fields are never consulted by the embedded code). -/
structure PolymarketConfig where
  Enabled : Bool
  MinTradeSize : Rat
  AlertThreshold : Rat
  FreshInsiderMaxBets : Int
  FreshWalletMaxBets : Int
  FreshNewbieMaxBets : Int
  CustomFreshMaxBets : Int
deriving DecidableEq, Repr

/-- Embeds `domain.DefaultPolymarketConfig`. -/
def DefaultPolymarketConfig : PolymarketConfig :=
  { Enabled := true
    MinTradeSize := 100
    AlertThreshold := 7/10
    FreshInsiderMaxBets := 3
    FreshWalletMaxBets := 10
    FreshNewbieMaxBets := 20
    CustomFreshMaxBets := 0 }

/-- Embeds `domain.WalletProfile` (the fields the analyzer writes; the optional
balance/age fields are never touched by the embedded code). `AnalyzedAt` is the
`Nat` instant of analysis. -/
structure WalletProfile where
  Address : String
  BetCount : Int
  JoinDate : String
  FreshnessLevel : FreshnessLevel
  IsFresh : Bool
  AnalyzedAt : Nat
  FreshThreshold : Int
  Nonce : Int
  TotalTxCount : Int
  IsBrandNew : Bool
deriving DecidableEq, Repr

/-- Embeds `domain.PolymarketEvent` (the fields read by the admission filter and the
notification orchestrators; event type and side are the Go string enums). -/
structure PolymarketEvent where
  EventType : String
  MarketName : String
  EventTitle : String
  Timestamp : Nat
  Price : String
  Size : String
  Side : String
  TradeID : String
  WalletAddress : String
  Outcome : String
deriving DecidableEq, Repr

/-- Embeds `domain.PolymarketEventFilter` (the fields consulted by `matchesBasicFilter`;
`FreshWalletsOnly` is carried along but never read by the save path). -/
structure PolymarketEventFilter where
  EventTypes : List String
  MarketName : String
  MinPrice : Rat
  MaxPrice : Rat
  Side : String
  MinSize : Rat
  FreshWalletsOnly : Bool
deriving DecidableEq, Repr

/-- Embeds `domain.NotificationConfig`. -/
structure NotificationConfig where
  Enabled : Bool
  Channel : String
  TelegramBotToken : String
  TelegramChatIDs : List String
  NotifyBigTrades : Bool
  NotifyFreshWallets : Bool
deriving DecidableEq, Repr

/-- Embeds `polymarket.ProfileStatsResponse`: the decoded body of the external
profile-stats lookup. -/
structure ProfileStatsResponse where
  Trades : Int
  LargestWin : Rat
  Views : Int
  JoinDate : String
deriving DecidableEq, Repr

/-! Wallet freshness analyzer (`wallet_analyzer.go`). -/

/-- Embeds `walletCacheTTL = 5 * time.Minute`, in seconds. -/
def walletCacheTTL : Nat := 300

/-- Embeds `maxCacheSize`. -/
def maxCacheSize : Nat := 10000

/-- Embeds `defaultMinTradeSize` ($100 USDC). -/
def defaultMinTradeSize : Rat := 100

/-- Embeds `defaultFreshInsiderMaxBets`. -/
def defaultFreshInsiderMaxBets : Int := 3

/-- Embeds `defaultFreshWalletMaxBets`. -/
def defaultFreshWalletMaxBets : Int := 10

/-- Embeds `defaultFreshNewbieMaxBets`. -/
def defaultFreshNewbieMaxBets : Int := 20

/-- Embeds `WalletAnalyzer.getFreshInsiderMaxBets`. -/
def getFreshInsiderMaxBets (cfg : PolymarketConfig) : Int :=
  if cfg.FreshInsiderMaxBets > 0 then cfg.FreshInsiderMaxBets else defaultFreshInsiderMaxBets

/-- Embeds `WalletAnalyzer.getFreshWalletMaxBets`. -/
def getFreshWalletMaxBets (cfg : PolymarketConfig) : Int :=
  if cfg.FreshWalletMaxBets > 0 then cfg.FreshWalletMaxBets else defaultFreshWalletMaxBets

/-- Embeds `WalletAnalyzer.getFreshNewbieMaxBets`. -/
def getFreshNewbieMaxBets (cfg : PolymarketConfig) : Int :=
  if cfg.FreshNewbieMaxBets > 0 then cfg.FreshNewbieMaxBets else defaultFreshNewbieMaxBets

/-- Embeds `WalletAnalyzer.getCustomFreshMaxBets`. -/
def getCustomFreshMaxBets (cfg : PolymarketConfig) : Int :=
  cfg.CustomFreshMaxBets

/-- Embeds `WalletAnalyzer.getMaxFreshThreshold`. -/
def getMaxFreshThreshold (cfg : PolymarketConfig) : Int :=
  if getCustomFreshMaxBets cfg > 0 then getCustomFreshMaxBets cfg else getFreshNewbieMaxBets cfg

/-- Embeds `WalletAnalyzer.getMinTradeSize`. -/
def getMinTradeSize (cfg : PolymarketConfig) : Rat :=
  if cfg.MinTradeSize > 0 then cfg.MinTradeSize else defaultMinTradeSize

/-- Embeds `WalletAnalyzer.determineFreshnessLevel`: categorize a wallet by bet count. -/
def determineFreshnessLevel (cfg : PolymarketConfig) (betCount : Int) : FreshnessLevel :=
  if betCount < 0 then .none
  else
    let insiderMax := getFreshInsiderMaxBets cfg
    let walletMax := getFreshWalletMaxBets cfg
    let newbieMax := getFreshNewbieMaxBets cfg
    let customMax := getCustomFreshMaxBets cfg
    if customMax > 0 ∧ betCount ≤ customMax then
      if betCount ≤ insiderMax then .insider
      else if betCount ≤ walletMax then .wallet
      else if betCount ≤ newbieMax then .newbie
      else .custom
    else
      if betCount ≤ insiderMax then .insider
      else if betCount ≤ walletMax then .wallet
      else if betCount ≤ newbieMax then .newbie
      else .none

/-- Embeds `polymarket.cachedProfile`: one in-process cache entry. -/
structure CachedProfile where
  profile : WalletProfile
  expiresAt : Nat
deriving DecidableEq, Repr

/-- The analyzer's in-process cache: the Go `map[string]*cachedProfile`, embedded
as an association list whose iteration order is list order. -/
abbrev WalletCache := List (String × CachedProfile)

/-- The wallet table of the persisted store (`polymarket_wallets`), embedded as
an association list keyed by address. -/
abbrev WalletStoreTable := List (String × WalletProfile)

/-- The mutable state `AnalyzeWallet` touches: the in-process cache and the
persisted wallet store. -/
structure AnalyzerState where
  cache : WalletCache
  store : WalletStoreTable
deriving DecidableEq, Repr

/-- Embeds `WalletAnalyzer.getFromCache`: a hit requires an unexpired entry
(`time.Now().After(expiresAt)` means expired, i.e. `expiresAt < now`). -/
def getFromCache (now : Nat) (cache : WalletCache) (address : String) : Option WalletProfile :=
  match cache.lookup address with
  | Option.none => Option.none
  | some cached => if cached.expiresAt < now then Option.none else some cached.profile

/-- Go map assignment `cache[address] = entry`: replace the existing binding,
else append a new one. -/
def cacheSet (cache : WalletCache) (address : String) (entry : CachedProfile) : WalletCache :=
  if cache.any (fun kv => kv.1 == address) then
    cache.map (fun kv => if kv.1 == address then (address, entry) else kv)
  else cache ++ [(address, entry)]

/-- Embeds `WalletAnalyzer.addToCache`: when the cache is at or over capacity, first
purge expired entries, then — if still at or over capacity — delete the first
`maxCacheSize / 2` entries in iteration order; finally insert the new entry
with a fresh TTL. -/
def addToCache (now : Nat) (cache : WalletCache) (address : String)
    (profile : WalletProfile) : WalletCache :=
  let cache1 :=
    if maxCacheSize ≤ cache.length then
      let purged := cache.filter (fun kv => !decide (kv.2.expiresAt < now))
      if maxCacheSize ≤ purged.length then purged.drop (maxCacheSize / 2) else purged
    else cache
  cacheSet cache1 address { profile := profile, expiresAt := now + walletCacheTTL }

/-- In-place update of a cached profile: the Go cache stores `*WalletProfile`,
so mutating the returned profile on a cache hit also updates the cache entry
(the entry's expiry is unchanged). -/
def cacheUpdateProfile (cache : WalletCache) (address : String) (p : WalletProfile) : WalletCache :=
  cache.map (fun kv => if kv.1 == address then (kv.1, { kv.2 with profile := p }) else kv)

/-- Embeds `PolymarketStore.GetWallet` (row found): the scan copies the row into a
profile and sets `Nonce = BetCount` for backward compatibility. -/
def GetWallet (store : WalletStoreTable) (address : String) : Option WalletProfile :=
  (store.lookup address).map (fun p => { p with Nonce := p.BetCount })

/-- Embeds `PolymarketStore.SaveWallet`: `INSERT ... ON CONFLICT(address) DO UPDATE`,
an upsert keyed by the profile's address. -/
def SaveWallet (store : WalletStoreTable) (profile : WalletProfile) : WalletStoreTable :=
  if store.any (fun kv => kv.1 == profile.Address) then
    store.map (fun kv => if kv.1 == profile.Address then (kv.1, profile) else kv)
  else store ++ [(profile.Address, profile)]

/-- Embeds `WalletAnalyzer.AnalyzeWallet`. Resolution order: in-process cache, then the
persisted store (only if already analyzed, `BetCount ≥ 0`), then the external
lookup (`api`; `none` models transport / non-200 / decode failure, in which case
a sentinel profile with `BetCount = -1` is returned and neither cache nor store
is touched). -/
def AnalyzeWallet (cfg : PolymarketConfig) (now : Nat) (st : AnalyzerState)
    (address : String) (api : Option ProfileStatsResponse) :
    Except String (WalletProfile × AnalyzerState) :=
  if address = "" then .error "empty wallet address"
  else
    match getFromCache now st.cache address with
    | some profile =>
        let lvl := determineFreshnessLevel cfg profile.BetCount
        let p := { profile with
                   FreshnessLevel := lvl
                   IsFresh := decide (lvl ≠ FreshnessLevel.none)
                   FreshThreshold := getMaxFreshThreshold cfg }
        .ok (p, { st with cache := cacheUpdateProfile st.cache address p })
    | Option.none =>
        let fetchPath : Except String (WalletProfile × AnalyzerState) :=
          match api with
          | Option.none =>
              .ok ({ Address := address
                     BetCount := -1
                     JoinDate := ""
                     FreshnessLevel := FreshnessLevel.none
                     IsFresh := false
                     AnalyzedAt := now
                     FreshThreshold := getMaxFreshThreshold cfg
                     Nonce := 0
                     TotalTxCount := 0
                     IsBrandNew := false }, st)
          | some stats =>
              let lvl := determineFreshnessLevel cfg stats.Trades
              let profile : WalletProfile :=
                { Address := address
                  BetCount := stats.Trades
                  JoinDate := stats.JoinDate
                  FreshnessLevel := lvl
                  IsFresh := decide (lvl ≠ FreshnessLevel.none)
                  AnalyzedAt := now
                  FreshThreshold := getMaxFreshThreshold cfg
                  Nonce := stats.Trades
                  TotalTxCount := stats.Trades
                  IsBrandNew := decide (stats.Trades = 0) }
              .ok (profile, { cache := addToCache now st.cache address profile
                              store := SaveWallet st.store profile })
        match GetWallet st.store address with
        | some dbProfile =>
            if dbProfile.BetCount ≥ 0 then
              let lvl := determineFreshnessLevel cfg dbProfile.BetCount
              let p := { dbProfile with
                         FreshnessLevel := lvl
                         IsFresh := decide (lvl ≠ FreshnessLevel.none)
                         FreshThreshold := getMaxFreshThreshold cfg
                         Nonce := dbProfile.BetCount }
              .ok (p, { st with cache := addToCache now st.cache address p })
            else fetchPath
        | Option.none => fetchPath

/-- Embeds `WalletAnalyzer.FetchAndUpdateWallet`: always hit the external lookup
(bypassing cache and store), then save to the store and refresh the cache.
Unlike `AnalyzeWallet`, a lookup failure is returned as an error. -/
def FetchAndUpdateWallet (cfg : PolymarketConfig) (now : Nat) (st : AnalyzerState)
    (address : String) (api : Option ProfileStatsResponse) :
    Except String (WalletProfile × AnalyzerState) :=
  if address = "" then .error "empty wallet address"
  else
    match api with
    | Option.none => .error "failed to fetch profile stats"
    | some stats =>
        let lvl := determineFreshnessLevel cfg stats.Trades
        let profile : WalletProfile :=
          { Address := address
            BetCount := stats.Trades
            JoinDate := stats.JoinDate
            FreshnessLevel := lvl
            IsFresh := decide (lvl ≠ FreshnessLevel.none)
            AnalyzedAt := now
            FreshThreshold := getMaxFreshThreshold cfg
            Nonce := stats.Trades
            TotalTxCount := stats.Trades
            IsBrandNew := decide (stats.Trades = 0) }
        .ok (profile, { cache := addToCache now st.cache address profile
                        store := SaveWallet st.store profile })

/-! Event admission filter (`PolymarketService`, refactoring plan). -/

/-- Accumulator of the hand-rolled float scanner `formatScan`: value so far,
sign multiplier, whether a decimal point was seen, and the place value of the
next fractional digit. -/
structure ScanState where
  val : Rat
  multiplier : Rat
  decimal : Bool
  decimalPlace : Rat
deriving DecidableEq, Repr

/-- One character of `formatScan`'s loop: `'-'` flips the sign, `'.'` switches
to fractional digits, digits accumulate, every other character is skipped. -/
def scanStep (st : ScanState) (c : Char) : ScanState :=
  if c = '-' then { st with multiplier := -1 }
  else if c = '.' then { st with decimal := true }
  else if '0' ≤ c ∧ c ≤ '9' then
    let digit : Rat := ((c.toNat - '0'.toNat : Nat) : Rat)
    if st.decimal then
      { st with val := st.val + digit * st.decimalPlace
                decimalPlace := st.decimalPlace / 10 }
    else
      { st with val := st.val * 10 + digit }
  else st

/-- Embeds `formatScan`: the plan's hand-rolled decimal parser (it never reports an
error; the result is `val * multiplier`). -/
def formatScan (s : String) : Rat :=
  let st := s.data.foldl scanStep { val := 0, multiplier := 1, decimal := false, decimalPlace := 1/10 }
  st.val * st.multiplier

/-- Embeds `parseFloat`: an empty string leaves the output at its zero value; otherwise
the scanned value is written (the scanner never fails). -/
def parseFloat (s : String) : Rat :=
  if s = "" then 0 else formatScan s

/-- Embeds `parseNotionalValue`: price × size, 0 when either field is empty (the
parse-error branches are dead because `formatScan` never fails). -/
def parseNotionalValue (price size : String) : Rat :=
  if price = "" ∨ size = "" then 0
  else parseFloat price * parseFloat size

/-- ASCII model of `strings.ToLower` on one character. -/
def toLowerChar (c : Char) : Char :=
  if 'A' ≤ c ∧ c ≤ 'Z' then Char.ofNat (c.toNat + 32) else c

/-- ASCII model of `strings.ToLower`. -/
def toLowerStr (s : String) : String :=
  String.mk (s.data.map toLowerChar)

/-- Substring test on character lists (`strings.Contains` semantics: the empty
needle is contained in everything). -/
def subSeqAt (needle : List Char) : List Char → Bool
  | [] => needle.isEmpty
  | c :: rest => needle.isPrefixOf (c :: rest) || subSeqAt needle rest

/-- Embeds `strings.Contains s sub`. -/
def strContains (s sub : String) : Bool :=
  subSeqAt sub.data s.data

/-- Embeds `PolymarketService.matchesBasicFilter`: the admission predicate, evaluated
in source order with short-circuiting — minimum notional (falling back to the
configured `MinTradeSize` when the filter sets none), event-type allow-list,
side, price band (skipped when the price field is absent), and case-insensitive
market-name substring match against market name and event title. -/
def matchesBasicFilter (cfg : PolymarketConfig) (e : PolymarketEvent)
    (f : PolymarketEventFilter) : Bool :=
  let notional := parseNotionalValue e.Price e.Size
  let minSize := if f.MinSize ≤ 0 then cfg.MinTradeSize else f.MinSize
  if notional < minSize then false
  else if f.EventTypes ≠ [] ∧ e.EventType ∉ f.EventTypes then false
  else if f.Side ≠ "" ∧ e.Side ≠ f.Side then false
  else if e.Price ≠ "" ∧ f.MinPrice > 0 ∧ parseFloat e.Price < f.MinPrice then false
  else if e.Price ≠ "" ∧ f.MaxPrice > 0 ∧ parseFloat e.Price > f.MaxPrice then false
  else if f.MarketName ≠ "" ∧
          strContains (toLowerStr e.MarketName) (toLowerStr f.MarketName) = false ∧
          strContains (toLowerStr e.EventTitle) (toLowerStr f.MarketName) = false then false
  else true

/-! Persisted store: dedup ledger and refresh query (`storage.PolymarketStore`). -/

/-- A dedup-ledger key: one `(item_type, item_id)` row of `notified_items`. -/
abbrev NotifKey := String × String

/-- Embeds `PolymarketStore.HasNotified`: `SELECT COUNT(*) ... > 0`, i.e. membership in
the `notified_items` table. -/
def HasNotified (ledger : List NotifKey) (itemType itemID : String) : Bool :=
  decide ((itemType, itemID) ∈ ledger)

/-- Embeds `PolymarketStore.MarkNotified`: `INSERT OR IGNORE` into a table whose
primary key is `(item_type, item_id)` — a set insertion. -/
def MarkNotified (ledger : List NotifKey) (itemType itemID : String) : List NotifKey :=
  if (itemType, itemID) ∈ ledger then ledger else (itemType, itemID) :: ledger

/-- One row of the `polymarket_wallets` table as read by the refresh query
(`last_analyzed_at` is `NULL`able). -/
structure WalletRow where
  address : String
  betCount : Int
  lastAnalyzedAt : Option Nat
deriving DecidableEq, Repr

/-- The `WHERE` clause of `GetWalletsForRefresh`:
`bet_count = -1 OR bet_count <= 50`. -/
def walletRefreshPred (r : WalletRow) : Bool :=
  r.betCount == -1 || decide (r.betCount ≤ 50)

/-- First `ORDER BY` key: `CASE WHEN bet_count = -1 THEN 0 ELSE 1 END`. -/
def refreshPriority (r : WalletRow) : Nat :=
  if r.betCount = -1 then 0 else 1

/-- Second `ORDER BY` key: `COALESCE(last_analyzed_at, '1970-01-01')` — a `NULL`
analysis time sorts as the epoch, i.e. before every real timestamp. -/
def coalescedAnalyzedAt (r : WalletRow) : Nat :=
  r.lastAnalyzedAt.getD 0

/-- The row order produced by the `ORDER BY` of `GetWalletsForRefresh`:
unanalyzed rows first, then ascending (coalesced) analysis time. -/
def refreshLe (a b : WalletRow) : Prop :=
  refreshPriority a < refreshPriority b ∨
    (refreshPriority a = refreshPriority b ∧ coalescedAnalyzedAt a ≤ coalescedAnalyzedAt b)

instance : DecidableRel refreshLe := fun a b => by
  unfold refreshLe; infer_instance

instance : IsTotal WalletRow refreshLe where
  total a b := by
    unfold refreshLe
    rcases Nat.lt_trichotomy (refreshPriority a) (refreshPriority b) with h | h | h
    · exact Or.inl (Or.inl h)
    · rcases Nat.le_total (coalescedAnalyzedAt a) (coalescedAnalyzedAt b) with h2 | h2
      · exact Or.inl (Or.inr ⟨h, h2⟩)
      · exact Or.inr (Or.inr ⟨h.symm, h2⟩)
    · exact Or.inr (Or.inl h)

instance : IsTrans WalletRow refreshLe where
  trans a b c hab hbc := by
    unfold refreshLe at *
    rcases hab with h | ⟨he, hle⟩ <;> rcases hbc with h2 | ⟨he2, hle2⟩
    · exact Or.inl (h.trans h2)
    · exact Or.inl (he2 ▸ h)
    · exact Or.inl (he ▸ h2)
    · exact Or.inr ⟨he.trans he2, hle.trans hle2⟩

/-- Embeds `PolymarketStore.GetWalletsForRefresh`: a non-positive limit defaults to
100; select the rows passing the `WHERE` clause, in the `ORDER BY` order
(embedded as a stable sort), truncated to the limit, projected to addresses. -/
def GetWalletsForRefresh (rows : List WalletRow) (limit : Int) : List String :=
  let limit := if limit ≤ 0 then 100 else limit
  (((rows.filter walletRefreshPred).insertionSort refreshLe).take limit.toNat).map
    (fun r => r.address)

/-!
Notification orchestrators.

Two implementations exist in the repository: `services.NotificationService` as
checked in (`notification_service.go`), which deduplicates fresh-wallet alerts
in a volatile in-memory set and does not deduplicate big-trade alerts at all,
and the refactoring plan's version, which checks-then-marks the persisted
`notified_items` ledger before dispatching either kind of alert. Both are
embedded. A handler consumes one event-bus delivery and yields the new
dedup state together with the list of dispatched messages, each recorded by its
logical `(item_type, item_id)` key (for a big-trade message that is the
`tradeId` carried in `NewBigTradeNotification`'s metadata; for a fresh-wallet
message, the wallet address). Delivery itself is asynchronous
(`sendNotificationAsync`); its success or failure (`deliverOk`) is only ever
logged. -/

/-- Embeds `NotifyTypeBigTrade`. -/
def NotifyTypeBigTrade : String := "big_trade"

/-- Embeds `NotifyTypeFreshWallet`. -/
def NotifyTypeFreshWallet : String := "fresh_wallet"

/-- The dedup id of a big-trade alert in the plan's handler: the trade id, or —
when it is absent — a composite of wallet address and timestamp (Go renders the
timestamp with `RFC3339Nano`; the embedding renders the `Nat` instant in
decimal, which is likewise injective in the timestamp). -/
def tradeNotifID (e : PolymarketEvent) : String :=
  if e.TradeID = "" then e.WalletAddress ++ "_" ++ toString e.Timestamp else e.TradeID

/-- Plan version of `NotificationService.handlePolymarketEvent`: gate on the
config toggles, look the trade's key up in the persisted ledger, mark it
*before* dispatching, then dispatch asynchronously. `deliverOk` is the outcome
of the underlying `telegram.Send`; it is only logged. -/
def handlePolymarketEventLedger (cfg : NotificationConfig) (ledger : List NotifKey)
    (e : PolymarketEvent) (deliverOk : Bool) : List NotifKey × List NotifKey :=
  if !cfg.Enabled || !cfg.NotifyBigTrades then (ledger, [])
  else
    let tradeID := tradeNotifID e
    if HasNotified ledger NotifyTypeBigTrade tradeID then (ledger, [])
    else
      let _ := deliverOk
      (MarkNotified ledger NotifyTypeBigTrade tradeID, [(NotifyTypeBigTrade, tradeID)])

/-- Plan version of `NotificationService.handleFreshWalletDetected`: the dedup
key is the wallet address. -/
def handleFreshWalletDetectedLedger (cfg : NotificationConfig) (ledger : List NotifKey)
    (p : WalletProfile) (deliverOk : Bool) : List NotifKey × List NotifKey :=
  if !cfg.Enabled || !cfg.NotifyFreshWallets then (ledger, [])
  else if HasNotified ledger NotifyTypeFreshWallet p.Address then (ledger, [])
  else
    let _ := deliverOk
    (MarkNotified ledger NotifyTypeFreshWallet p.Address, [(NotifyTypeFreshWallet, p.Address)])

/-- One event-bus delivery to the notification service: a `polymarket:event`
or a `polymarket:fresh_wallet_detected` payload. -/
inductive BusDelivery where
  | trade (e : PolymarketEvent)
  | wallet (p : WalletProfile)
deriving DecidableEq, Repr

/-- Dispatch one delivery to the matching plan-version handler. -/
def stepLedger (cfg : NotificationConfig) (ledger : List NotifKey) (d : BusDelivery)
    (deliverOk : Bool) : List NotifKey × List NotifKey :=
  match d with
  | .trade e => handlePolymarketEventLedger cfg ledger e deliverOk
  | .wallet p => handleFreshWalletDetectedLedger cfg ledger p deliverOk

/-- Run the plan-version orchestrator over a sequence of deliveries; `outs`
supplies each dispatch's delivery outcome (exhaustion defaults to success).
Returns the final ledger and the concatenated dispatch log. -/
def runLedger (cfg : NotificationConfig) :
    List NotifKey → List BusDelivery → List Bool → List NotifKey × List NotifKey
  | ledger, [], _ => (ledger, [])
  | ledger, d :: ds, outs =>
      let r1 := stepLedger cfg ledger d (outs.headD true)
      let r2 := runLedger cfg r1.1 ds outs.tail
      (r2.1, r1.2 ++ r2.2)

/-- State of the checked-in `services.NotificationService`: the volatile
`notifiedWallets map[string]bool` (there is no big-trade dedup state). -/
structure MemNotifState where
  notifiedWallets : List String
deriving DecidableEq, Repr

/-- Checked-in `NotificationService.handlePolymarketEvent`: gate on the config
toggles and dispatch — there is no dedup check for big trades. -/
def handlePolymarketEventMem (cfg : NotificationConfig) (st : MemNotifState)
    (e : PolymarketEvent) : MemNotifState × List NotifKey :=
  if !cfg.Enabled || !cfg.NotifyBigTrades then (st, [])
  else (st, [(NotifyTypeBigTrade, e.TradeID)])

/-- Checked-in `NotificationService.handleFreshWalletDetected`: first-time-only
per wallet address, tracked in the in-memory set, marked before dispatching. -/
def handleFreshWalletDetectedMem (cfg : NotificationConfig) (st : MemNotifState)
    (p : WalletProfile) : MemNotifState × List NotifKey :=
  if !cfg.Enabled || !cfg.NotifyFreshWallets then (st, [])
  else if st.notifiedWallets.contains p.Address then (st, [])
  else ({ notifiedWallets := p.Address :: st.notifiedWallets }, [(NotifyTypeFreshWallet, p.Address)])

/-- Dispatch one delivery to the matching checked-in handler. -/
def stepMem (cfg : NotificationConfig) (st : MemNotifState) (d : BusDelivery) :
    MemNotifState × List NotifKey :=
  match d with
  | .trade e => handlePolymarketEventMem cfg st e
  | .wallet p => handleFreshWalletDetectedMem cfg st p

/-- Run the checked-in orchestrator over a sequence of deliveries. -/
def runMem (cfg : NotificationConfig) :
    MemNotifState → List BusDelivery → MemNotifState × List NotifKey
  | st, [] => (st, [])
  | st, d :: ds =>
      let r1 := stepMem cfg st d
      let r2 := runMem cfg r1.1 ds
      (r2.1, r1.2 ++ r2.2)

/-! Severity order on freshness bands, and concrete fixtures. -/

/-- Severity of a freshness band: highest for `insider`, decreasing along
insider → fresh → newbie → custom-fresh → none. -/
def severity : FreshnessLevel → Nat
  | .insider => 4
  | .wallet => 3
  | .newbie => 2
  | .custom => 1
  | .none => 0

/-- A sentinel wallet profile used as concrete test data. -/
def profile0 : WalletProfile :=
  { Address := "w0", BetCount := -1, JoinDate := "", FreshnessLevel := FreshnessLevel.none
    IsFresh := false, AnalyzedAt := 0, FreshThreshold := 0, Nonce := 0, TotalTxCount := 0
    IsBrandNew := false }

/-- A cache entry expiring at instant 1, used as concrete test data. -/
def entry0 : CachedProfile := { profile := profile0, expiresAt := 1 }

/-- A cache filled to capacity with unexpired entries (as seen at instant 0). -/
def cacheFull : WalletCache := List.replicate maxCacheSize ("k", entry0)

/-- The empty analyzer state (fresh cache and empty wallet table). -/
def emptyAnalyzerState : AnalyzerState := { cache := [], store := [] }

/-- A notification configuration with everything enabled. -/
def cfgAllOn : NotificationConfig :=
  { Enabled := true, Channel := "telegram", TelegramBotToken := "token"
    TelegramChatIDs := ["chat"], NotifyBigTrades := true, NotifyFreshWallets := true }

/-- A concrete trade event with trade id `"t1"`. -/
def eventT1 : PolymarketEvent :=
  { EventType := "trade", MarketName := "m", EventTitle := "T", Timestamp := 0
    Price := "0.5", Size := "1000", Side := "BUY", TradeID := "t1"
    WalletAddress := "0xabc", Outcome := "Yes" }

/-- The spec scenario trade: price `"0.45"`, size `"500"` (notional 225). -/
def e045 : PolymarketEvent :=
  { EventType := "trade", MarketName := "market", EventTitle := "Title", Timestamp := 0
    Price := "0.45", Size := "500", Side := "BUY", TradeID := "t2"
    WalletAddress := "0xdef", Outcome := "Yes" }

/-- A save-filter whose only constraint is `minSize = 100`. -/
def fMin100 : PolymarketEventFilter :=
  { EventTypes := [], MarketName := "", MinPrice := 0, MaxPrice := 0, Side := ""
    MinSize := 100, FreshWalletsOnly := false }

/-- A save-filter whose only constraint is `minSize = 300`. -/
def fMin300 : PolymarketEventFilter :=
  { EventTypes := [], MarketName := "", MinPrice := 0, MaxPrice := 0, Side := ""
    MinSize := 300, FreshWalletsOnly := false }

/-- An unanalyzed wallet row, used as concrete test data. -/
def row0 : WalletRow := { address := "a", betCount := -1, lastAnalyzedAt := Option.none }

/-- An analyzed wallet row (12 bets, analyzed at instant 7). -/
def row1 : WalletRow := { address := "b", betCount := 12, lastAnalyzedAt := some 7 }

/-- The sentinel profile `AnalyzeWallet` synthesizes for address `"a"` at
instant 0 under the default configuration when the external lookup fails. -/
def pFail : WalletProfile :=
  { Address := "a", BetCount := -1, JoinDate := "", FreshnessLevel := FreshnessLevel.none
    IsFresh := false, AnalyzedAt := 0, FreshThreshold := 20, Nonce := 0, TotalTxCount := 0
    IsBrandNew := false }

/-- Apply a sequence of further `MarkNotified` calls to a ledger. -/
def applyMarks (ledger : List NotifKey) (ops : List NotifKey) : List NotifKey :=
  ops.foldl (fun acc k => MarkNotified acc k.1 k.2) ledger

/-! Theorems. -/

/-- Claim C4: with thresholds insider=3, fresh=10, newbie=20 and the custom
override disabled (the default configuration), bet count 0 classifies as
`insider` (hence fresh), 15 as `newbie`, 25 as no band (hence not fresh), and
every negative bet count classifies as no band. -/
theorem determineFreshnessLevel_default_scenario (b : Int) (hb : b < 0) :
    determineFreshnessLevel DefaultPolymarketConfig 0 = FreshnessLevel.insider ∧
    determineFreshnessLevel DefaultPolymarketConfig 0 ≠ FreshnessLevel.none ∧
    determineFreshnessLevel DefaultPolymarketConfig 15 = FreshnessLevel.newbie ∧
    determineFreshnessLevel DefaultPolymarketConfig 25 = FreshnessLevel.none ∧
    determineFreshnessLevel DefaultPolymarketConfig b = FreshnessLevel.none := by
  refine ⟨by decide, by decide, by decide, by decide, ?_⟩
  unfold determineFreshnessLevel
  rw [if_pos hb]

/-- Witness for C4 at the concrete negative bet count −5. -/
theorem determineFreshnessLevel_default_scenario_witness :
    (-5 : Int) < 0 ∧ determineFreshnessLevel DefaultPolymarketConfig (-5) = FreshnessLevel.none :=
  ⟨by decide, (determineFreshnessLevel_default_scenario (-5) (by decide)).2.2.2.2⟩

/-- Claim C5: classification is deterministic (it is a pure function of the
configuration and the bet count) and monotone: with effective cut-offs ordered
insider ≤ fresh ≤ newbie, a larger non-negative bet count never lands in a
more severe band (severity decreasing along insider → fresh → newbie →
custom-fresh → none). -/
theorem determineFreshnessLevel_monotone (cfg : PolymarketConfig) (c1 c2 : Int)
    (h1 : getFreshInsiderMaxBets cfg ≤ getFreshWalletMaxBets cfg)
    (h2 : getFreshWalletMaxBets cfg ≤ getFreshNewbieMaxBets cfg)
    (hc0 : 0 ≤ c1) (hc : c1 ≤ c2) :
    severity (determineFreshnessLevel cfg c2) ≤ severity (determineFreshnessLevel cfg c1) := by
  simp only [determineFreshnessLevel]
  split_ifs <;> simp only [severity] <;> omega

/-- Witness for C5 at the default configuration with bet counts 0 ≤ 25. -/
theorem determineFreshnessLevel_monotone_witness :
    getFreshInsiderMaxBets DefaultPolymarketConfig ≤ getFreshWalletMaxBets DefaultPolymarketConfig ∧
    getFreshWalletMaxBets DefaultPolymarketConfig ≤ getFreshNewbieMaxBets DefaultPolymarketConfig ∧
    severity (determineFreshnessLevel DefaultPolymarketConfig 25) ≤
      severity (determineFreshnessLevel DefaultPolymarketConfig 0) :=
  ⟨by decide, by decide,
    determineFreshnessLevel_monotone DefaultPolymarketConfig 0 25
      (by decide) (by decide) (by decide) (by decide)⟩

/-- Claim C6: admission is a pure function of event and filter (it is embedded
as one), and an event whose notional value (price × size, with the configured
`MinTradeSize` standing in when the filter sets no positive minimum) is below
the minimum-notional floor is never admitted, whatever the other predicates
say. -/
theorem matchesBasicFilter_below_min_notional (cfg : PolymarketConfig)
    (e : PolymarketEvent) (f : PolymarketEventFilter)
    (h : parseNotionalValue e.Price e.Size <
          (if f.MinSize ≤ 0 then cfg.MinTradeSize else f.MinSize)) :
    matchesBasicFilter cfg e f = false ∧
    parseNotionalValue e045.Price e045.Size = 225 ∧
    matchesBasicFilter DefaultPolymarketConfig e045 fMin100 = true ∧
    matchesBasicFilter DefaultPolymarketConfig e045 fMin300 = false := by
  have h225 : parseNotionalValue e045.Price e045.Size = 225 := by
    simp +decide [e045, parseNotionalValue, parseFloat, formatScan, scanStep]
    norm_num
  refine ⟨?_, h225, ?_, ?_⟩
  · simp only [matchesBasicFilter]
    rw [if_pos h]
  · simp only [matchesBasicFilter, fMin100, e045, DefaultPolymarketConfig] at *
    rw [h225]
    norm_num
  · have h300 : parseNotionalValue e045.Price e045.Size <
        (if fMin300.MinSize ≤ 0 then DefaultPolymarketConfig.MinTradeSize else fMin300.MinSize) := by
      rw [h225]
      norm_num [fMin300]
    simp only [matchesBasicFilter] at *
    rw [if_pos h300]

/-- Witness for C6, the spec scenario: price `"0.45"` × size `"500"` has
notional 225; it is admitted under `minSize = 100` and dropped under
`minSize = 300`. -/
theorem matchesBasicFilter_below_min_notional_witness :
    parseNotionalValue e045.Price e045.Size <
      (if fMin300.MinSize ≤ 0 then DefaultPolymarketConfig.MinTradeSize else fMin300.MinSize) ∧
    matchesBasicFilter DefaultPolymarketConfig e045 fMin300 = false := by
  have h300 : parseNotionalValue e045.Price e045.Size <
      (if fMin300.MinSize ≤ 0 then DefaultPolymarketConfig.MinTradeSize else fMin300.MinSize) := by
    simp +decide [e045, fMin300, DefaultPolymarketConfig, parseNotionalValue, parseFloat,
      formatScan, scanStep]
    norm_num
  exact ⟨h300,
    (matchesBasicFilter_below_min_notional DefaultPolymarketConfig e045 fMin300 h300).1⟩

/-- A negative bet count never classifies into a fresh band. -/
theorem determineFreshnessLevel_neg (cfg : PolymarketConfig) (c : Int) (hc : c < 0) :
    determineFreshnessLevel cfg c = FreshnessLevel.none := by
  unfold determineFreshnessLevel
  rw [if_pos hc]

/-- Every profile returned by `AnalyzeWallet` carries a freshness level, fresh
flag and threshold computed from the current configuration (all four resolution
paths). -/
theorem analyzeWallet_ok_inv (cfg : PolymarketConfig) (now : Nat) (st : AnalyzerState)
    (address : String) (api : Option ProfileStatsResponse) (p : WalletProfile)
    (st' : AnalyzerState)
    (h : AnalyzeWallet cfg now st address api = .ok (p, st')) :
    p.FreshnessLevel = determineFreshnessLevel cfg p.BetCount ∧
    p.IsFresh = decide (determineFreshnessLevel cfg p.BetCount ≠ FreshnessLevel.none) ∧
    p.FreshThreshold = getMaxFreshThreshold cfg := by
  simp only [AnalyzeWallet] at h
  split at h
  · simp at h
  · split at h
    · -- cache hit
      rw [Except.ok.injEq, Prod.mk.injEq] at h
      obtain ⟨hp, -⟩ := h
      subst hp
      simp
    · -- cache miss: database, then external lookup
      split at h
      · -- database row found
        split at h
        · -- already analyzed
          rw [Except.ok.injEq, Prod.mk.injEq] at h
          obtain ⟨hp, -⟩ := h
          subst hp
          simp
        · -- unanalyzed row: external lookup
          rcases api with - | stats
          · rw [Except.ok.injEq, Prod.mk.injEq] at h
            obtain ⟨hp, -⟩ := h
            subst hp
            simp [determineFreshnessLevel_neg cfg (-1) (by decide)]
          · rw [Except.ok.injEq, Prod.mk.injEq] at h
            obtain ⟨hp, -⟩ := h
            subst hp
            simp
      · -- no database row: external lookup
        rcases api with - | stats
        · rw [Except.ok.injEq, Prod.mk.injEq] at h
          obtain ⟨hp, -⟩ := h
          subst hp
          simp [determineFreshnessLevel_neg cfg (-1) (by decide)]
        · rw [Except.ok.injEq, Prod.mk.injEq] at h
          obtain ⟨hp, -⟩ := h
          subst hp
          simp

/-- Every profile returned by `FetchAndUpdateWallet` carries a freshness level,
fresh flag and threshold computed from the current configuration. -/
theorem fetchAndUpdateWallet_ok_inv (cfg : PolymarketConfig) (now : Nat) (st : AnalyzerState)
    (address : String) (api : Option ProfileStatsResponse) (p : WalletProfile)
    (st' : AnalyzerState)
    (h : FetchAndUpdateWallet cfg now st address api = .ok (p, st')) :
    p.FreshnessLevel = determineFreshnessLevel cfg p.BetCount ∧
    p.IsFresh = decide (determineFreshnessLevel cfg p.BetCount ≠ FreshnessLevel.none) ∧
    p.FreshThreshold = getMaxFreshThreshold cfg := by
  simp only [FetchAndUpdateWallet] at h
  split at h
  · simp at h
  · rcases api with - | stats
    · simp at h
    · rw [Except.ok.injEq, Prod.mk.injEq] at h
      obtain ⟨hp, -⟩ := h
      subst hp
      simp

/-- Claim C3: every profile returned by `AnalyzeWallet` has its freshness
level, fresh flag and threshold recomputed from the currently configured
thresholds at return time — on the in-process cache hit, on the persisted-store
hit with `BetCount ≥ 0`, and on the fresh external lookup alike — so a stale
stored classification is never returned as-is. -/
theorem analyzeWallet_reclassifies (cfg : PolymarketConfig) (now : Nat) (st : AnalyzerState)
    (address : String) (api : Option ProfileStatsResponse) (p : WalletProfile)
    (st' : AnalyzerState)
    (h : AnalyzeWallet cfg now st address api = .ok (p, st')) :
    p.FreshnessLevel = determineFreshnessLevel cfg p.BetCount ∧
    (p.IsFresh = true ↔ determineFreshnessLevel cfg p.BetCount ≠ FreshnessLevel.none) ∧
    p.FreshThreshold = getMaxFreshThreshold cfg := by
  obtain ⟨h1, h2, h3⟩ := analyzeWallet_ok_inv cfg now st address api p st' h
  exact ⟨h1, by rw [h2]; exact decide_eq_true_iff, h3⟩

/-- Witness for C3: the external-lookup-failure path for address `"a"` on the
empty state under the default configuration. -/
theorem analyzeWallet_reclassifies_witness :
    (AnalyzeWallet DefaultPolymarketConfig 0 emptyAnalyzerState "a" Option.none =
      .ok (pFail, emptyAnalyzerState)) ∧
    pFail.FreshnessLevel = determineFreshnessLevel DefaultPolymarketConfig pFail.BetCount :=
  ⟨rfl,
   (analyzeWallet_reclassifies DefaultPolymarketConfig 0 emptyAnalyzerState "a" Option.none
      pFail emptyAnalyzerState rfl).1⟩

/-- Claim C2 (amended: the empty address is the one exception — see the
counterexample): for every non-empty address `AnalyzeWallet` never returns an
error; when the external lookup fails (and neither cache nor store can resolve
the address) it returns the sentinel profile with `BetCount = -1` and
`IsFresh = false` while leaving cache and store untouched, so an immediately
following call for the same address consults the external lookup again. -/
theorem analyzeWallet_never_errors (cfg : PolymarketConfig) (now : Nat) (st : AnalyzerState)
    (address : String) (hne : address ≠ "") :
    (∀ api, ∃ r, AnalyzeWallet cfg now st address api = .ok r) ∧
    (getFromCache now st.cache address = Option.none →
      (∀ q, GetWallet st.store address = some q → q.BetCount < 0) →
      (AnalyzeWallet cfg now st address Option.none =
        .ok ({ Address := address, BetCount := -1, JoinDate := "",
               FreshnessLevel := FreshnessLevel.none, IsFresh := false, AnalyzedAt := now,
               FreshThreshold := getMaxFreshThreshold cfg, Nonce := 0, TotalTxCount := 0,
               IsBrandNew := false }, st)) ∧
      (∀ (stats : ProfileStatsResponse),
        let q : WalletProfile :=
          { Address := address, BetCount := stats.Trades, JoinDate := stats.JoinDate,
            FreshnessLevel := determineFreshnessLevel cfg stats.Trades,
            IsFresh := decide (determineFreshnessLevel cfg stats.Trades ≠ FreshnessLevel.none),
            AnalyzedAt := now, FreshThreshold := getMaxFreshThreshold cfg,
            Nonce := stats.Trades, TotalTxCount := stats.Trades,
            IsBrandNew := decide (stats.Trades = 0) }
        AnalyzeWallet cfg now st address (some stats) =
          .ok (q, { cache := addToCache now st.cache address q,
                    store := SaveWallet st.store q }))) := by
  constructor
  · intro api
    simp only [AnalyzeWallet]
    rw [if_neg hne]
    repeat first | exact ⟨_, rfl⟩ | split
  · intro hcache hstore
    constructor
    · simp only [AnalyzeWallet]
      rw [if_neg hne]
      split
      · rename_i profile heq
        rw [hcache] at heq
        simp at heq
      · split
        · rename_i dbProfile heq
          rw [if_neg (not_le.mpr (hstore dbProfile heq))]
        · rfl
    · intro stats
      simp only [AnalyzeWallet]
      rw [if_neg hne]
      split
      · rename_i profile heq
        rw [hcache] at heq
        simp at heq
      · split
        · rename_i dbProfile heq
          rw [if_neg (not_le.mpr (hstore dbProfile heq))]
        · rfl

/-- Witness for C2: address `"a"` on the empty state under the default
configuration; the failed lookup yields the sentinel and the unchanged state. -/
theorem analyzeWallet_never_errors_witness :
    ("a" : String) ≠ "" ∧
    AnalyzeWallet DefaultPolymarketConfig 0 emptyAnalyzerState "a" Option.none =
      .ok ({ Address := "a", BetCount := -1, JoinDate := "",
             FreshnessLevel := FreshnessLevel.none, IsFresh := false, AnalyzedAt := 0,
             FreshThreshold := getMaxFreshThreshold DefaultPolymarketConfig, Nonce := 0,
             TotalTxCount := 0, IsBrandNew := false }, emptyAnalyzerState) :=
  ⟨by decide,
   (((analyzeWallet_never_errors DefaultPolymarketConfig 0 emptyAnalyzerState "a"
        (by decide)).2 rfl (by intro q hq; simp [GetWallet, emptyAnalyzerState] at hq)).1)⟩

/-- Counterexample to C2 as stated: for the empty address `AnalyzeWallet` does
return an error, before any lookup is attempted. -/
theorem analyzeWallet_empty_address_errors :
    AnalyzeWallet DefaultPolymarketConfig 0 emptyAnalyzerState "" Option.none =
      .error "empty wallet address" := by
  rfl

/-- Claim C10: every profile returned by `AnalyzeWallet` or
`FetchAndUpdateWallet` satisfies `IsFresh = (FreshnessLevel ≠ none)`, including
the lookup-failure sentinel (fresh flag `false`, empty freshness level). -/
theorem returned_profile_isFresh_iff_band (cfg : PolymarketConfig) (now : Nat)
    (st : AnalyzerState) (address : String) (api : Option ProfileStatsResponse)
    (p : WalletProfile) (st' : AnalyzerState)
    (h : AnalyzeWallet cfg now st address api = .ok (p, st') ∨
         FetchAndUpdateWallet cfg now st address api = .ok (p, st')) :
    p.IsFresh = true ↔ p.FreshnessLevel ≠ FreshnessLevel.none := by
  have key : p.FreshnessLevel = determineFreshnessLevel cfg p.BetCount ∧
      p.IsFresh = decide (determineFreshnessLevel cfg p.BetCount ≠ FreshnessLevel.none) := by
    rcases h with h | h
    · obtain ⟨h1, h2, -⟩ := analyzeWallet_ok_inv cfg now st address api p st' h
      exact ⟨h1, h2⟩
    · obtain ⟨h1, h2, -⟩ := fetchAndUpdateWallet_ok_inv cfg now st address api p st' h
      exact ⟨h1, h2⟩
  rw [key.2, key.1]
  exact decide_eq_true_iff

/-- Witness for C10: the lookup-failure sentinel returned by `AnalyzeWallet`
for address `"a"` on the empty state. -/
theorem returned_profile_isFresh_iff_band_witness :
    (AnalyzeWallet DefaultPolymarketConfig 0 emptyAnalyzerState "a" Option.none =
        .ok (pFail, emptyAnalyzerState) ∨
     FetchAndUpdateWallet DefaultPolymarketConfig 0 emptyAnalyzerState "a" Option.none =
        .ok (pFail, emptyAnalyzerState)) ∧
    (pFail.IsFresh = true ↔ pFail.FreshnessLevel ≠ FreshnessLevel.none) :=
  ⟨Or.inl rfl,
   returned_profile_isFresh_iff_band DefaultPolymarketConfig 0 emptyAnalyzerState "a"
     Option.none pFail emptyAnalyzerState (Or.inl rfl)⟩

/-- The map assignment `cacheSet` grows the cache by at most one entry. -/
theorem cacheSet_length_le (cache : WalletCache) (address : String) (e : CachedProfile) :
    (cacheSet cache address e).length ≤ cache.length + 1 := by
  unfold cacheSet
  split
  · rw [List.length_map]
    omega
  · rw [List.length_append]
    simp

/-- Claim C9: inserting into a cache that sits exactly at capacity with no
expired entry first purges nothing (nothing is expired), then evicts
`maxCacheSize / 2` entries — half the cache — before inserting, leaving the
cache strictly below capacity (at most `maxCacheSize / 2 + 1` entries). -/
theorem addToCache_evicts_half (now : Nat) (cache : WalletCache) (address : String)
    (profile : WalletProfile)
    (hcap : cache.length = maxCacheSize)
    (hfresh : ∀ kv ∈ cache, ¬ kv.2.expiresAt < now) :
    ((cache.filter (fun kv => !decide (kv.2.expiresAt < now))).drop (maxCacheSize / 2)).length
        = maxCacheSize - maxCacheSize / 2 ∧
    (addToCache now cache address profile).length ≤ maxCacheSize / 2 + 1 ∧
    (addToCache now cache address profile).length < maxCacheSize := by
  have hfilter : cache.filter (fun kv => !decide (kv.2.expiresAt < now)) = cache := by
    apply List.filter_eq_self.mpr
    intro kv hkv
    simp [hfresh kv hkv]
  have hdrop : ((cache.filter (fun kv => !decide (kv.2.expiresAt < now))).drop
      (maxCacheSize / 2)).length = maxCacheSize - maxCacheSize / 2 := by
    rw [hfilter, List.length_drop, hcap]
  have hform : addToCache now cache address profile =
      cacheSet (cache.drop (maxCacheSize / 2)) address
        { profile := profile, expiresAt := now + walletCacheTTL } := by
    unfold addToCache
    rw [if_pos (le_of_eq hcap.symm), hfilter, if_pos (le_of_eq hcap.symm)]
  have hlen : (addToCache now cache address profile).length ≤ maxCacheSize / 2 + 1 := by
    rw [hform]
    calc (cacheSet (cache.drop (maxCacheSize / 2)) address
            { profile := profile, expiresAt := now + walletCacheTTL }).length
        ≤ (cache.drop (maxCacheSize / 2)).length + 1 := cacheSet_length_le _ _ _
      _ = maxCacheSize - maxCacheSize / 2 + 1 := by rw [List.length_drop, hcap]
      _ = maxCacheSize / 2 + 1 := by decide
  exact ⟨hdrop, hlen, lt_of_le_of_lt hlen (by decide)⟩

/-- Witness for C9: a cache of 10000 unexpired entries, insertion at instant 0. -/
theorem addToCache_evicts_half_witness :
    cacheFull.length = maxCacheSize ∧
    (addToCache 0 cacheFull "a" profile0).length < maxCacheSize := by
  have hcap : cacheFull.length = maxCacheSize := by
    simp [cacheFull]
  exact ⟨hcap,
    (addToCache_evicts_half 0 cacheFull "a" profile0 hcap
      (fun kv _ => Nat.not_lt_zero _)).2.2⟩

/-- Claim C8 (amended: for a non-positive limit the code substitutes a default
of 100 — see the counterexample): for positive `limit`,
`GetWalletsForRefresh` returns at most `limit` addresses, drawn only from rows
that are unanalyzed (`bet_count = -1`) or have `bet_count ≤ 50`, ordered with
unanalyzed rows before analyzed ones and analyzed rows by ascending analysis
time, a missing analysis time sorting before every real one. -/
theorem getWalletsForRefresh_spec (rows : List WalletRow) (limit : Int) (hl : 0 < limit) :
    (GetWalletsForRefresh rows limit).length ≤ limit.toNat ∧
    (∀ r ∈ ((rows.filter walletRefreshPred).insertionSort refreshLe).take limit.toNat,
       r.betCount = -1 ∨ r.betCount ≤ 50) ∧
    List.Pairwise refreshLe
      (((rows.filter walletRefreshPred).insertionSort refreshLe).take limit.toNat) := by
  have hlim : (if limit ≤ 0 then (100 : Int) else limit) = limit := if_neg (not_le.mpr hl)
  refine ⟨?_, ?_, ?_⟩
  · unfold GetWalletsForRefresh
    rw [hlim, List.length_map, List.length_take]
    exact min_le_left _ _
  · intro r hr
    have hr2 : r ∈ (rows.filter walletRefreshPred).insertionSort refreshLe :=
      List.mem_of_mem_take hr
    have hr3 : r ∈ rows.filter walletRefreshPred := (List.mem_insertionSort refreshLe).mp hr2
    have hp := List.of_mem_filter hr3
    simpa [walletRefreshPred] using hp
  · exact List.Pairwise.sublist (List.take_sublist _ _) (List.sorted_insertionSort refreshLe _)

/-- Witness for C8 at `limit = 2` over one analyzed and one unanalyzed row. -/
theorem getWalletsForRefresh_spec_witness :
    (0 : Int) < 2 ∧ (GetWalletsForRefresh [row1, row0] 2).length ≤ (2 : Int).toNat :=
  ⟨by decide, (getWalletsForRefresh_spec [row1, row0] 2 (by decide)).1⟩

/-- Counterexample to C8 as stated: with `limit = 0` the query does not return
at most 0 addresses — the code replaces a non-positive limit with 100 and here
returns one address. -/
theorem getWalletsForRefresh_limit_zero :
    ¬ ((GetWalletsForRefresh [row0] 0).length ≤ (0 : Int).toNat) := by
  decide

/-- The marked key is in the ledger after `MarkNotified`. -/
theorem mem_MarkNotified (l : List NotifKey) (t id : String) :
    (t, id) ∈ MarkNotified l t id := by
  unfold MarkNotified
  split
  · assumption
  · exact List.mem_cons_self _ _

/-- The insertion `MarkNotified` never removes ledger entries. -/
theorem mem_MarkNotified_of_mem (l : List NotifKey) (t id : String) (k : NotifKey)
    (h : k ∈ l) : k ∈ MarkNotified l t id := by
  unfold MarkNotified
  split
  · exact h
  · exact List.mem_cons_of_mem _ h

/-- Ledger entries survive any sequence of further `MarkNotified` calls. -/
theorem mem_applyMarks (ops : List NotifKey) : ∀ (l : List NotifKey) (k : NotifKey),
    k ∈ l → k ∈ applyMarks l ops := by
  induction ops with
  | nil => intro l k h; exact h
  | cons op rest ih =>
      intro l k h
      exact ih (MarkNotified l op.1 op.2) k (mem_MarkNotified_of_mem l op.1 op.2 k h)

/-- One plan-version handler step: the ledger only grows, every dispatched key
was unmarked before and is marked after, and at most one message is dispatched. -/
theorem stepLedger_spec (cfg : NotificationConfig) (l : List NotifKey) (d : BusDelivery)
    (ok : Bool) :
    l ⊆ (stepLedger cfg l d ok).1 ∧
    (∀ k ∈ (stepLedger cfg l d ok).2, k ∉ l ∧ k ∈ (stepLedger cfg l d ok).1) ∧
    (stepLedger cfg l d ok).2.length ≤ 1 := by
  cases d with
  | trade e =>
      simp only [stepLedger, handlePolymarketEventLedger]
      split_ifs with h1 h2
      · exact ⟨fun k hk => hk, by simp, by simp⟩
      · exact ⟨fun k hk => hk, by simp, by simp⟩
      · refine ⟨fun k hk => mem_MarkNotified_of_mem _ _ _ k hk, ?_, by simp⟩
        intro k hk
        simp only [List.mem_singleton] at hk
        subst hk
        refine ⟨?_, mem_MarkNotified _ _ _⟩
        intro hmem
        exact h2 (by simpa [HasNotified] using hmem)
  | wallet p =>
      simp only [stepLedger, handleFreshWalletDetectedLedger]
      split_ifs with h1 h2
      · exact ⟨fun k hk => hk, by simp, by simp⟩
      · exact ⟨fun k hk => hk, by simp, by simp⟩
      · refine ⟨fun k hk => mem_MarkNotified_of_mem _ _ _ k hk, ?_, by simp⟩
        intro k hk
        simp only [List.mem_singleton] at hk
        subst hk
        refine ⟨?_, mem_MarkNotified _ _ _⟩
        intro hmem
        exact h2 (by simpa [HasNotified] using hmem)

/-- A plan-version run only ever adds ledger entries. -/
theorem runLedger_ledger_monotone (cfg : NotificationConfig) (msgs : List BusDelivery) :
    ∀ (l : List NotifKey) (outs : List Bool), l ⊆ (runLedger cfg l msgs outs).1 := by
  induction msgs with
  | nil => intro l outs k hk; exact hk
  | cons d ds ih =>
      intro l outs
      exact ((stepLedger_spec cfg l d (outs.headD true)).1).trans (ih _ outs.tail)

/-- Dispatch counting for a plan-version run: a key already in the ledger is
never dispatched, and no key is ever dispatched more than once. -/
theorem runLedger_count (cfg : NotificationConfig) (msgs : List BusDelivery) :
    ∀ (l : List NotifKey) (outs : List Bool) (k : NotifKey),
      (k ∈ l → List.count k (runLedger cfg l msgs outs).2 = 0) ∧
      List.count k (runLedger cfg l msgs outs).2 ≤ 1 := by
  induction msgs with
  | nil => intro l outs k; simp [runLedger]
  | cons d ds ih =>
      intro l outs k
      obtain ⟨hsub, hlog, hlen⟩ := stepLedger_spec cfg l d (outs.headD true)
      simp only [runLedger, List.count_append]
      constructor
      · intro hk
        have hc1 : List.count k (stepLedger cfg l d (outs.headD true)).2 = 0 := by
          rw [List.count_eq_zero]
          intro hmem
          exact (hlog k hmem).1 hk
        have hc2 := (ih (stepLedger cfg l d (outs.headD true)).1 outs.tail k).1 (hsub hk)
        omega
      · by_cases hmem : k ∈ (stepLedger cfg l d (outs.headD true)).2
        · have hc2 := (ih (stepLedger cfg l d (outs.headD true)).1 outs.tail k).1 ((hlog k hmem).2)
          have hc1 : List.count k (stepLedger cfg l d (outs.headD true)).2 ≤ 1 :=
            le_trans (List.count_le_length _ _) hlen
          omega
        · have hc1 : List.count k (stepLedger cfg l d (outs.headD true)).2 = 0 :=
            List.count_eq_zero.mpr hmem
          have hc2 := (ih (stepLedger cfg l d (outs.headD true)).1 outs.tail k).2
          omega

/-- Claim C1 (amended: the restart-safe, persisted-ledger orchestrator of the
refactoring plan; the checked-in in-memory orchestrator violates the claim for
big trades — see the counterexample): once `MarkNotified(type, id)` has run,
`HasNotified(type, id)` reports already-notified after any further marks, and a
plan-version run dispatches each `(type, id)` key at most once over any
delivery sequence — in particular over repeated deliveries of one trade or one
fresh wallet. -/
theorem notification_dedup_ledger :
    (∀ (l : List NotifKey) (t id : String) (ops : List NotifKey),
      HasNotified (applyMarks (MarkNotified l t id) ops) t id = true) ∧
    (∀ (cfg : NotificationConfig) (l : List NotifKey) (msgs : List BusDelivery)
        (outs : List Bool) (k : NotifKey),
      List.count k (runLedger cfg l msgs outs).2 ≤ 1) := by
  constructor
  · intro l t id ops
    exact decide_eq_true (mem_applyMarks ops (MarkNotified l t id) (t, id)
      (mem_MarkNotified l t id))
  · intro cfg l msgs outs k
    exact (runLedger_count cfg msgs l outs k).2

/-- Witness for C1: a mark of `("big_trade", "t1")` followed by a later mark,
and a run of the plan orchestrator over the same trade delivered twice. -/
theorem notification_dedup_ledger_witness :
    HasNotified (applyMarks (MarkNotified [] NotifyTypeBigTrade "t1")
      [(NotifyTypeFreshWallet, "w")]) NotifyTypeBigTrade "t1" = true ∧
    List.count (NotifyTypeBigTrade, "t1")
      (runLedger cfgAllOn [] [BusDelivery.trade eventT1, BusDelivery.trade eventT1] []).2 ≤ 1 :=
  ⟨notification_dedup_ledger.1 [] NotifyTypeBigTrade "t1" [(NotifyTypeFreshWallet, "w")],
   notification_dedup_ledger.2 cfgAllOn [] [BusDelivery.trade eventT1, BusDelivery.trade eventT1]
     [] (NotifyTypeBigTrade, "t1")⟩

/-- Counterexample to C1 as stated: the checked-in in-memory orchestrator
(`notification_service.go`) performs no dedup check for big trades, so the same
trade event delivered twice is dispatched twice. -/
theorem inMemory_big_trade_double_dispatch :
    ¬ (List.count (NotifyTypeBigTrade, "t1")
        (runMem cfgAllOn { notifiedWallets := [] }
          [BusDelivery.trade eventT1, BusDelivery.trade eventT1]).2 ≤ 1) := by
  decide

/-- Claim C7 (plan-version orchestrator): the delivery outcome never influences
the handler's state or dispatch decision (a failed send is only logged, and the
handler returns nothing to the event bus); every dispatched alert's `(type,id)`
key is already marked in the handler's resulting ledger (mark-before-send);
and a key once marked stays marked over any further run. -/
theorem mark_before_send_isolated_failures :
    (∀ (cfg : NotificationConfig) (l : List NotifKey) (d : BusDelivery) (o1 o2 : Bool),
      stepLedger cfg l d o1 = stepLedger cfg l d o2) ∧
    (∀ (cfg : NotificationConfig) (l : List NotifKey) (d : BusDelivery) (ok : Bool),
      ∀ k ∈ (stepLedger cfg l d ok).2, HasNotified (stepLedger cfg l d ok).1 k.1 k.2 = true) ∧
    (∀ (cfg : NotificationConfig) (l : List NotifKey) (msgs : List BusDelivery)
        (outs : List Bool) (t id : String),
      HasNotified l t id = true → HasNotified (runLedger cfg l msgs outs).1 t id = true) := by
  refine ⟨fun cfg l d o1 o2 => rfl, ?_, ?_⟩
  · intro cfg l d ok k hk
    have hmem : k ∈ (stepLedger cfg l d ok).1 := ((stepLedger_spec cfg l d ok).2.1 k hk).2
    exact decide_eq_true hmem
  · intro cfg l msgs outs t id h
    have hmem : (t, id) ∈ l := of_decide_eq_true h
    exact decide_eq_true (runLedger_ledger_monotone cfg msgs l outs hmem)

/-- Witness for C7: one delivery of the concrete trade with both delivery
outcomes, and persistence of an already-marked key across a run. -/
theorem mark_before_send_isolated_failures_witness :
    (stepLedger cfgAllOn [] (BusDelivery.trade eventT1) true =
      stepLedger cfgAllOn [] (BusDelivery.trade eventT1) false) ∧
    (HasNotified [(NotifyTypeBigTrade, "t1")] NotifyTypeBigTrade "t1" = true ∧
     HasNotified (runLedger cfgAllOn [(NotifyTypeBigTrade, "t1")]
        [BusDelivery.trade eventT1] []).1 NotifyTypeBigTrade "t1" = true) :=
  ⟨mark_before_send_isolated_failures.1 cfgAllOn [] (BusDelivery.trade eventT1) true false,
   by decide,
   mark_before_send_isolated_failures.2.2 cfgAllOn [(NotifyTypeBigTrade, "t1")]
     [BusDelivery.trade eventT1] [] NotifyTypeBigTrade "t1" (by decide)⟩
